import Mathlib

/-!
Shallow embedding of the two demo programs in this repository:

* `SceneDemo` embeds `src/ThreeJS/Demo/src/script.js`, the three.js
  lighting/animation showcase: the module-level mutable values (`sizes`,
  `mouseX`/`mouseY`, the sphere's transform, camera aspect, renderer size)
  become fields of a state record, and each event handler (`resize`,
  `mousemove`, `scroll`) and the per-frame `tick` body become state
  transformers.

* `WebXRApp` embeds the `App` class of the WebXR hit-test sample
  (`src/unnamed/part_001`): the capability probe in `init`/`onNoXRDevice`,
  the session-end handler `onXRSessionEnded`, the per-frame callback
  `onXRFrame` (both its effect ordering and its reticle-stabilization
  branch), and the asynchronous `placeModel` method.

JavaScript numbers are modelled as `ℚ` (none of the claims is
floating-point sensitive), DOM `classList` as a duplicate-free `List String`
with `classAdd`/`classRemove` mirroring `classList.add`/`remove`, and
promise outcomes as `Except` values passed to the continuation.
-/

namespace SceneDemo

/-- Transform state of the sphere mesh: `position` and `rotation`
components, as mutated by `script.js`. -/
structure SphereState where
  posX : ℚ
  posY : ℚ
  posZ : ℚ
  rotX : ℚ
  rotY : ℚ
  rotZ : ℚ
deriving DecidableEq, Repr

/-- Module-level mutable state of `script.js`: the `sizes` object, the
camera's aspect ratio, the renderer's size and pixel ratio, the
`mouseX`/`mouseY` smoothing inputs, and the sphere's transform. -/
structure DemoState where
  sizesWidth : ℚ
  sizesHeight : ℚ
  cameraAspect : ℚ
  rendererWidth : ℚ
  rendererHeight : ℚ
  rendererPixelRatio : ℚ
  mouseX : ℚ
  mouseY : ℚ
  sphere : SphereState
deriving DecidableEq, Repr

/-- The `resize` listener (script.js lines 84-96): store the new window
size in `sizes`, set `camera.aspect = sizes.width / sizes.height`, and set
the renderer size to the new viewport and its pixel ratio to
`min(devicePixelRatio, 2)`. -/
def onResize (st : DemoState) (innerWidth innerHeight devicePixelRatio : ℚ) :
    DemoState :=
  { st with
    sizesWidth := innerWidth
    sizesHeight := innerHeight
    cameraAspect := innerWidth / innerHeight
    rendererWidth := innerWidth
    rendererHeight := innerHeight
    rendererPixelRatio := min devicePixelRatio 2 }

/-- The `mousemove` listener (script.js lines 140-143):
`mouseX = event.clientX - windowX; mouseY = event.clientY - windowY`. -/
def onMouseMove (st : DemoState) (clientX clientY windowX windowY : ℚ) :
    DemoState :=
  { st with
    mouseX := clientX - windowX
    mouseY := clientY - windowY }

/-- The `scroll` listener (script.js lines 145-147):
`sphere.position.y = window.scrollY * 0.001`. -/
def onScroll (st : DemoState) (scrollY : ℚ) : DemoState :=
  { st with sphere := { st.sphere with posY := scrollY * (1 / 1000) } }

/-- The body of `tick` (script.js lines 151-164) restricted to the sphere:
recompute `targetX`/`targetY` from the mouse offsets, overwrite
`rotation.y` with the constant-rate spin `0.5 * elapsedTime`, damp
`rotation.x` toward `targetY`, damp the freshly spun `rotation.y` toward
`targetX`, and accumulate `position.z` by `-0.05 * (targetY - rotation.x)`
where `rotation.x` is the value already updated this frame. -/
def tickSphere (s : SphereState) (mouseX mouseY elapsedTime : ℚ) :
    SphereState :=
  let targetX := mouseX * (1 / 1000)
  let targetY := mouseY * (1 / 1000)
  let rotYSpun := (1 / 2) * elapsedTime
  let rotX1 := s.rotX + (1 / 20) * (targetY - s.rotX)
  let rotY1 := rotYSpun + (1 / 2) * (targetX - rotYSpun)
  let posZ1 := s.posZ + (-(1 / 20)) * (targetY - rotX1)
  { s with rotX := rotX1, rotY := rotY1, posZ := posZ1 }

/-- One frame of the animation loop as it acts on `DemoState`: `tick`
reads the latest `mouseX`/`mouseY` and the clock and updates only the
sphere. -/
def tickFrame (st : DemoState) (elapsedTime : ℚ) : DemoState :=
  { st with sphere := tickSphere st.sphere st.mouseX st.mouseY elapsedTime }

end SceneDemo

namespace WebXRApp

/-- Mirror of `classList.add`: append the class unless already present. -/
def classAdd (cs : List String) (c : String) : List String :=
  if c ∈ cs then cs else cs ++ [c]

/-- Mirror of `classList.remove`: drop every occurrence of the class. -/
def classRemove (cs : List String) (c : String) : List String :=
  cs.filter (fun x => x ≠ c)

/-- Position component of a 4x4 column-major matrix given as its 16-entry
element array, as read by `THREE.Vector3.setFromMatrixPosition`
(elements 12, 13 and 14). -/
structure Vec3 where
  x : ℚ
  y : ℚ
  z : ℚ
deriving DecidableEq, Repr

/-- Extract the translation column of a column-major 4x4 matrix array. -/
def matrixPosition (m : List ℚ) : Vec3 :=
  ⟨m.getD 12 0, m.getD 13 0, m.getD 14 0⟩

/-- An `XRHitResult`: its single property `hitMatrix` is a 16-entry
column-major matrix array. -/
structure Hit where
  hitMatrix : List ℚ
deriving DecidableEq, Repr

/-- State of `this.model`: its world position, the argument of the last
`lookAt` call (which orients the model toward that point), and the
accumulated extra `rotateY` angle applied after `lookAt`. -/
structure ModelState where
  position : Vec3
  lookTarget : Option Vec3
  extraRotY : ℚ
deriving DecidableEq, Repr

/-- The fields of the `App` instance that `placeModel` and
`onXRSessionEnded` read or write: the session handle, the lazily created
raycaster, the renderer and its bound session, the `stabilized` flag, the
model, whether the model has been added to `this.scene`, the scene's
optional `pivot` y-rotation, the camera's world matrix (16-entry array),
and `document.body`'s class list. -/
structure AppState where
  session : Option Unit
  raycaster : Bool
  renderer : Bool
  rendererSession : Option Unit
  stabilized : Bool
  model : ModelState
  sceneHasModel : Bool
  scenePivotRotY : Option ℚ
  cameraMatrix : List ℚ
  bodyClasses : List String
deriving DecidableEq, Repr

/-- Effect record of one `placeModel` invocation: whether
`session.requestHitTest` was issued and whether the `catch` branch logged
an error. -/
structure PlaceEffects where
  hitTestIssued : Bool
  errorLogged : Bool
deriving DecidableEq, Repr

/-- The `placeModel` method (part_001 lines 237-297). The awaited
`requestHitTest` outcome is passed in as `hitOutcome`: `Except.error` for a
rejection (caught and logged, leaving `hits` undefined) and `Except.ok`
for a resolved list. If `this.session == null` the method returns before
creating the raycaster or issuing the hit test. On a non-empty hit list it
takes `hits[0]`, sets the model position from that hit's matrix, adds the
model to the scene, calls
`lookAt(camPosition.x, model.position.y, camPosition.z)` with
`camPosition` read from `this.camera.matrix`, and, only when the scene has
a `pivot`, rotates the model by the negated pivot y-rotation. -/
def placeModel (st : AppState) (hitOutcome : Except String (List Hit)) :
    AppState × PlaceEffects :=
  if st.session = none then
    (st, ⟨false, false⟩)
  else
    let st1 := { st with raycaster := true }
    match hitOutcome with
    | Except.error _ => (st1, ⟨true, true⟩)
    | Except.ok hits =>
      match hits with
      | [] => (st1, ⟨true, false⟩)
      | hit :: _ =>
        let newPos := matrixPosition hit.hitMatrix
        let camPos := matrixPosition st1.cameraMatrix
        let model1 := { st1.model with
          position := newPos
          lookTarget := some ⟨camPos.x, newPos.y, camPos.z⟩ }
        let model2 := match st1.scenePivotRotY with
          | some r => { model1 with extraRotY := model1.extraRotY - r }
          | none => model1
        ({ st1 with model := model2, sceneHasModel := true }, ⟨true, false⟩)

/-- The `onXRSessionEnded` handler (part_001 lines 88-96): always remove
the `ar` and `stabilized` classes from `document.body`; if a renderer
exists, also unbind its session and clear the `stabilized` flag. -/
def onXRSessionEnded (st : AppState) : AppState :=
  let st1 := { st with
    bodyClasses := classRemove (classRemove st.bodyClasses "ar") "stabilized" }
  if st1.renderer then
    { st1 with rendererSession := none, stabilized := false }
  else
    st1

/-- Per-frame input as far as the stabilization logic is concerned:
whether the viewer pose was available this frame, and the visibility the
reticle ends the frame's view loop with when the pose was available (the
reticle is only updated inside that loop). -/
structure FrameInput where
  poseAvailable : Bool
  reticleVis : Bool
deriving DecidableEq, Repr

/-- Projection of the `App` state read and written by the
reticle-stabilization logic of `onXRFrame` (part_001 lines 180-182 and
212-217): the reticle's visibility, the `stabilized` flag and
`document.body`'s class list. The rest of the frame's work (camera update,
input processing, rendering, placement) touches none of these fields. -/
structure StabState where
  reticleVisible : Bool
  stabilized : Bool
  bodyClasses : List String
deriving DecidableEq, Repr

/-- One invocation of `onXRFrame` restricted to the stabilization logic.
When the pose is `null` the callback returns before updating the reticle
or reaching the stabilization check. Otherwise the reticle's visibility is
updated by the view loop and then, if the reticle is visible and the app
is not yet stabilized, the `stabilized` flag is set and the `stabilized`
class added. The returned `Bool` reports whether that transition fired
this frame. -/
def frameStab (st : StabState) (f : FrameInput) : StabState × Bool :=
  if f.poseAvailable then
    let st1 := { st with reticleVisible := f.reticleVis }
    if st1.reticleVisible && !st1.stabilized then
      ({ st1 with
          stabilized := true
          bodyClasses := classAdd st1.bodyClasses "stabilized" }, true)
    else
      (st1, false)
  else
    (st, false)

/-- Run `frameStab` over a whole list of frames, returning the final
state. -/
def runFrames (st : StabState) : List FrameInput → StabState
  | [] => st
  | f :: fs => runFrames (frameStab st f).1 fs

/-- The per-frame stream of transition events: one `Bool` per frame,
`true` when the stabilization transition fired on that frame. -/
def fireTrace (st : StabState) : List FrameInput → List Bool
  | [] => []
  | f :: fs => (frameStab st f).2 :: fireTrace (frameStab st f).1 fs

/-- A frame on which the stabilization check can see a visible reticle:
the pose was available and the reticle ends the frame visible. -/
def frameVisible (f : FrameInput) : Bool :=
  f.poseAvailable && f.reticleVis

/-- Specification-side event stream: `true` exactly at the first frame of
the list whose reticle is visible (pose available), `false` everywhere
else. -/
def firstVisibleMark : List FrameInput → List Bool
  | [] => []
  | f :: fs =>
    if frameVisible f then true :: fs.map (fun _ => false)
    else false :: firstVisibleMark fs

/-- Observable effects of one `onXRFrame` invocation, in program order
(part_001 lines 169-218). -/
inductive FrameAction where
  | getPose
  | requestFrame
  | setViewport
  | cameraUpdate
  | reticleUpdate
  | processInput
  | render
  | stabilizeCheck
deriving DecidableEq, Repr

/-- Effect trace of one `onXRFrame` invocation: the viewer pose is read,
then `this.tick()` requests the next animation frame, and only then, when
the pose was non-null, the per-view work (viewport, camera matrices,
reticle update, input processing, render) runs for each view followed by
the stabilization check; when the pose is null the callback returns right
after rescheduling. -/
def onXRFrameActions (poseAvailable : Bool) (numViews : ℕ) :
    List FrameAction :=
  [FrameAction.getPose, FrameAction.requestFrame] ++
    (if poseAvailable then
      (List.replicate numViews
        [FrameAction.setViewport, FrameAction.cameraUpdate,
         FrameAction.reticleUpdate, FrameAction.processInput,
         FrameAction.render]).flatten ++ [FrameAction.stabilizeCheck]
    else [])

/-- The frame work the render loop must not starve: everything `onXRFrame`
does after rescheduling, per the spec's list (camera update, reticle
update, input processing, rendering). -/
def isFrameWork : FrameAction → Bool
  | FrameAction.cameraUpdate => true
  | FrameAction.reticleUpdate => true
  | FrameAction.processInput => true
  | FrameAction.render => true
  | _ => false

/-- Outcome of the `isSessionSupported("immersive-ar")` promise:
`Except.ok b` when it resolves with boolean `b`, `Except.error ()` when it
rejects. -/
abbrev SupportAnswer := Except Unit Bool

/-- Platform capabilities probed by `init` (part_001 lines 16-46):
whether `navigator.xr` exists, whether
`XRSession.prototype.requestHitTestSource` exists, and how the
`isSessionSupported("immersive-ar")` promise settles. -/
structure Env where
  hasNavigatorXR : Bool
  hasRequestHitTestSource : Bool
  sessionSupported : SupportAnswer

/-- Observable result of the capability probe: whether the `unsupported`
class ended up on `document.body` (`onNoXRDevice`, part_001 lines 52-54)
and whether the click listener on `#enter-ar` was registered. -/
structure InitResult where
  unsupportedClass : Bool
  enterARArmed : Bool
deriving DecidableEq, Repr

/-- The `init` method (part_001 lines 16-46) observed after the
`isSessionSupported` promise has settled. If `navigator.xr` or
`requestHitTestSource` is missing, `onNoXRDevice` runs and `init` returns
before registering the click listener. Otherwise the click listener on
`#enter-ar` is registered unconditionally (the registration statement
follows the `then` call synchronously), and `onNoXRDevice` runs only when
the `isSessionSupported` promise rejects; a promise that resolves is
treated as success whatever boolean it carries. -/
def initProbe (env : Env) : InitResult :=
  if env.hasNavigatorXR && env.hasRequestHitTestSource then
    { unsupportedClass :=
        match env.sessionSupported with
        | Except.ok _ => false
        | Except.error _ => true
      enterARArmed := true }
  else
    { unsupportedClass := true, enterARArmed := false }

end WebXRApp

namespace SceneDemo

/-- A concrete module state as it stands right after the construction part
of `script.js` on an 800x600 viewport: sphere at the origin with zero
rotation, mouse offsets zero. -/
def demoInit : DemoState :=
  { sizesWidth := 800
    sizesHeight := 600
    cameraAspect := 800 / 600
    rendererWidth := 800
    rendererHeight := 600
    rendererPixelRatio := 2
    mouseX := 0
    mouseY := 0
    sphere :=
      { posX := 0, posY := 0, posZ := 0, rotX := 0, rotY := 0, rotZ := 0 } }

end SceneDemo

namespace WebXRApp

/-- A concrete mid-session app state: session live, renderer bound,
camera at position (7, 8, 9), body carrying the `ar` class. -/
def sampleApp : AppState :=
  { session := some ()
    raycaster := false
    renderer := true
    rendererSession := some ()
    stabilized := false
    model := { position := ⟨0, 0, 0⟩, lookTarget := none, extraRotY := 0 }
    sceneHasModel := false
    scenePivotRotY := none
    cameraMatrix :=
      [1, 0, 0, 0, 0, 1, 0, 0, 0, 0, 1, 0, 7, 8, 9, 1]
    bodyClasses := ["ar"] }

/-- A concrete hit whose matrix places the model at (1, 2, 3). -/
def hitA : Hit :=
  ⟨[1, 0, 0, 0, 0, 1, 0, 0, 0, 0, 1, 0, 1, 2, 3, 1]⟩

/-- A second concrete hit, farther away, at (4, 5, 6). -/
def hitB : Hit :=
  ⟨[1, 0, 0, 0, 0, 1, 0, 0, 0, 0, 1, 0, 4, 5, 6, 1]⟩

/-- A concrete stabilization state at session start: reticle invisible,
not stabilized, body carrying only the `ar` class. -/
def stabInit : StabState :=
  { reticleVisible := false, stabilized := false, bodyClasses := ["ar"] }

/-- A concrete five-frame session trace: a poseless frame, a frame with an
invisible reticle, two frames with a visible reticle, and a poseless
frame. -/
def sampleFrames : List FrameInput :=
  [⟨false, false⟩, ⟨true, false⟩, ⟨true, true⟩, ⟨true, true⟩,
   ⟨false, true⟩]

/-- A concrete environment whose session-support query resolves with a
negative (false) answer. -/
def envNegAnswer : Env :=
  { hasNavigatorXR := true
    hasRequestHitTestSource := true
    sessionSupported := Except.ok false }

end WebXRApp

namespace SceneDemo

/-- C6: after every resize event the camera's aspect ratio equals the new
viewport width divided by the new viewport height, and the renderer's
size equals the new viewport width and height. -/
theorem resize_syncs_camera_and_renderer (st : DemoState) (w h dpr : ℚ) :
    (onResize st w h dpr).cameraAspect = w / h
    ∧ (onResize st w h dpr).rendererWidth = w
    ∧ (onResize st w h dpr).rendererHeight = h :=
  ⟨rfl, rfl, rfl⟩

/-- C7 counterexample: a scroll event with `scrollY = 100` moves the
sphere's y position from 0 to 1/10 inside the handler itself, so the
handlers do not leave the sphere's position untouched until the next
per-frame update. -/
theorem scroll_moves_sphere_in_handler :
    (onScroll demoInit 100).sphere.posY ≠ demoInit.sphere.posY := by
  norm_num [onScroll, demoInit]

/-- C7 (amended): the pointer-move handler updates only the mouse
smoothing inputs and leaves the sphere untouched, but the scroll handler
mutates scene state directly: it sets the sphere's y position to
`scrollY * 0.001`, leaving the other sphere components and the smoothing
inputs unchanged. -/
theorem mousemove_targets_only_scroll_direct (st : DemoState)
    (cX cY wX wY sY : ℚ) :
    (onMouseMove st cX cY wX wY).sphere = st.sphere
    ∧ (onMouseMove st cX cY wX wY).mouseX = cX - wX
    ∧ (onMouseMove st cX cY wX wY).mouseY = cY - wY
    ∧ (onScroll st sY).sphere.posY = sY * (1 / 1000)
    ∧ (onScroll st sY).sphere.posX = st.sphere.posX
    ∧ (onScroll st sY).sphere.posZ = st.sphere.posZ
    ∧ (onScroll st sY).sphere.rotX = st.sphere.rotX
    ∧ (onScroll st sY).sphere.rotY = st.sphere.rotY
    ∧ (onScroll st sY).sphere.rotZ = st.sphere.rotZ
    ∧ (onScroll st sY).mouseX = st.mouseX
    ∧ (onScroll st sY).mouseY = st.mouseY :=
  ⟨rfl, rfl, rfl, rfl, rfl, rfl, rfl, rfl, rfl, rfl, rfl⟩

/-- C8: per frame, `rotation.y` ends as a pure function of elapsed time
and the pointer target (constant-rate spin blended toward the target),
`rotation.x` is exponentially damped toward the pointer-derived target,
the depth change equals the negated damping term evaluated at the updated
`rotation.x`, the remaining sphere components are untouched, the rotation
updates read no accumulated state beyond the damped `rotation.x` itself,
and `tickFrame` feeds the update exactly the latest mouse targets. -/
theorem tick_pure_spin_and_damp (s : SphereState) (mX mY t : ℚ) :
    (tickSphere s mX mY t).rotY
        = (1 / 4) * t + (1 / 2) * (mX * (1 / 1000))
    ∧ (tickSphere s mX mY t).rotX
        = s.rotX + (1 / 20) * (mY * (1 / 1000) - s.rotX)
    ∧ (tickSphere s mX mY t).posZ - s.posZ
        = -((1 / 20) * (mY * (1 / 1000) - (tickSphere s mX mY t).rotX))
    ∧ (tickSphere s mX mY t).posX = s.posX
    ∧ (tickSphere s mX mY t).posY = s.posY
    ∧ (tickSphere s mX mY t).rotZ = s.rotZ
    ∧ (∀ s2 : SphereState, s2.rotX = s.rotX →
        (tickSphere s2 mX mY t).rotX = (tickSphere s mX mY t).rotX
        ∧ (tickSphere s2 mX mY t).rotY = (tickSphere s mX mY t).rotY)
    ∧ (∀ st : DemoState,
        (tickFrame st t).sphere
          = tickSphere st.sphere st.mouseX st.mouseY t) := by
  refine ⟨?_, rfl, ?_, rfl, rfl, rfl, ?_, fun _ => rfl⟩
  · simp only [tickSphere]
    ring
  · simp only [tickSphere]
    ring
  · intro s2 h
    refine ⟨?_, rfl⟩
    simp only [tickSphere, h]

/-- Witness for C8 at a concrete sphere state, mouse offset and time. -/
theorem tick_pure_spin_and_damp_witness :
    (tickSphere demoInit.sphere 100 200 4).rotY
        = (1 / 4) * 4 + (1 / 2) * (100 * (1 / 1000))
    ∧ (tickSphere { demoInit.sphere with posY := 5 } 100 200 4).rotX
        = (tickSphere demoInit.sphere 100 200 4).rotX :=
  ⟨(tick_pure_spin_and_damp demoInit.sphere 100 200 4).1,
   ((tick_pure_spin_and_damp demoInit.sphere 100 200 4).2.2.2.2.2.2.1
      { demoInit.sphere with posY := 5 } rfl).1⟩

end SceneDemo

namespace WebXRApp

theorem mem_classAdd_self (cs : List String) (c : String) :
    c ∈ classAdd cs c := by
  unfold classAdd
  split
  · assumption
  · simp

theorem mem_classAdd_of_mem {cs : List String} {a : String} (c : String)
    (h : a ∈ cs) : a ∈ classAdd cs c := by
  unfold classAdd
  split
  · exact h
  · simp [h]

theorem not_mem_classRemove (cs : List String) (c : String) :
    c ∉ classRemove cs c := by
  simp [classRemove]

theorem not_mem_classRemove_of_not_mem {cs : List String} {a : String}
    (c : String) (h : a ∉ cs) : a ∉ classRemove cs c := by
  intro hm
  exact h (List.mem_of_mem_filter hm)

theorem onXRSessionEnded_bodyClasses (st : AppState) :
    (onXRSessionEnded st).bodyClasses
      = classRemove (classRemove st.bodyClasses "ar") "stabilized" := by
  cases hr : st.renderer <;> simp [onXRSessionEnded, hr]

/-- C5: every session-end event leaves `document.body` without the `ar`
class and without the `stabilized` class, whatever the prior state of the
renderer, the stabilization flag or the class list. -/
theorem session_end_clears_ar_and_stabilized (st : AppState) :
    "ar" ∉ (onXRSessionEnded st).bodyClasses
    ∧ "stabilized" ∉ (onXRSessionEnded st).bodyClasses := by
  rw [onXRSessionEnded_bodyClasses]
  exact ⟨not_mem_classRemove_of_not_mem _ (not_mem_classRemove _ _),
         not_mem_classRemove _ _⟩

/-- C10: with a null session handle `placeModel` returns immediately: no
raycaster is created, no hit test is issued, nothing is logged, and the
application state is returned unchanged. -/
theorem placeModel_null_session_noop (st : AppState)
    (h : st.session = none) (hitOutcome : Except String (List Hit)) :
    placeModel st hitOutcome = (st, ⟨false, false⟩) := by
  unfold placeModel
  rw [if_pos h]

/-- Witness for C10: a torn-down state offered a non-empty hit list is
returned untouched with no hit test issued. -/
theorem placeModel_null_session_noop_witness :
    placeModel { sampleApp with session := none } (Except.ok [hitA])
      = ({ sampleApp with session := none }, ⟨false, false⟩) :=
  placeModel_null_session_noop { sampleApp with session := none } rfl
    (Except.ok [hitA])

end WebXRApp

namespace WebXRApp

theorem frameStab_of_stabilized (st : StabState) (f : FrameInput)
    (h : st.stabilized = true) :
    (frameStab st f).1.stabilized = true ∧ (frameStab st f).2 = false := by
  cases hp : f.poseAvailable <;> simp [frameStab, hp, h]

theorem fireTrace_of_stabilized :
    ∀ (fs : List FrameInput) (st : StabState), st.stabilized = true →
      fireTrace st fs = List.replicate fs.length false := by
  intro fs
  induction fs with
  | nil => intro st h; rfl
  | cons f fs ih =>
    intro st h
    have hm := frameStab_of_stabilized st f h
    simp [fireTrace, hm.2, ih _ hm.1, List.replicate_succ]

theorem fireTrace_marks_first :
    ∀ (fs : List FrameInput) (st : StabState), st.stabilized = false →
      fireTrace st fs = firstVisibleMark fs := by
  intro fs
  induction fs with
  | nil => intro st h; rfl
  | cons f fs ih =>
    intro st h
    cases hp : f.poseAvailable with
    | false =>
      have hst : frameStab st f = (st, false) := by simp [frameStab, hp]
      simp [fireTrace, firstVisibleMark, frameVisible, hp, hst, ih st h]
    | true =>
      cases hv : f.reticleVis with
      | false =>
        have hst : frameStab st f
            = ({ st with reticleVisible := false }, false) := by
          simp [frameStab, hp, hv, h]
        simp [fireTrace, firstVisibleMark, frameVisible, hp, hv, hst,
          ih { st with reticleVisible := false } h]
      | true =>
        have hst : frameStab st f
            = ({ st with
                  reticleVisible := true
                  stabilized := true
                  bodyClasses := classAdd st.bodyClasses "stabilized" },
               true) := by
          simp [frameStab, hp, hv, h]
        have h2 : fireTrace st (f :: fs)
            = (frameStab st f).2 :: fireTrace (frameStab st f).1 fs := rfl
        rw [h2, hst]
        rw [fireTrace_of_stabilized fs _ rfl]
        simp [firstVisibleMark, frameVisible, hp, hv]

theorem runFrames_stabilized :
    ∀ (fs : List FrameInput) (st : StabState),
      (runFrames st fs).stabilized = (st.stabilized || fs.any frameVisible) := by
  intro fs
  induction fs with
  | nil => intro st; simp [runFrames]
  | cons f fs ih =>
    intro st
    rw [runFrames, ih]
    cases hp : f.poseAvailable <;> cases hv : f.reticleVis <;>
      cases hs : st.stabilized <;>
        simp [frameStab, frameVisible, hp, hv, hs]

theorem runFrames_classes_mono :
    ∀ (fs : List FrameInput) (st : StabState) (a : String),
      a ∈ st.bodyClasses → a ∈ (runFrames st fs).bodyClasses := by
  intro fs
  induction fs with
  | nil => intro st a h; exact h
  | cons f fs ih =>
    intro st a h
    rw [runFrames]
    apply ih
    unfold frameStab
    split
    · dsimp only
      split
      · exact mem_classAdd_of_mem _ h
      · exact h
    · exact h

theorem runFrames_gains_class :
    ∀ (fs : List FrameInput) (st : StabState), st.stabilized = false →
      fs.any frameVisible = true →
      "stabilized" ∈ (runFrames st fs).bodyClasses := by
  intro fs
  induction fs with
  | nil => intro st h ha; simp at ha
  | cons f fs ih =>
    intro st h ha
    rw [runFrames]
    cases hp : f.poseAvailable with
    | false =>
      have hst : frameStab st f = (st, false) := by simp [frameStab, hp]
      rw [hst]
      refine ih st h ?_
      simpa [frameVisible, hp] using ha
    | true =>
      cases hv : f.reticleVis with
      | false =>
        have hst : frameStab st f
            = ({ st with reticleVisible := false }, false) := by
          simp [frameStab, hp, hv, h]
        rw [hst]
        refine ih { st with reticleVisible := false } h ?_
        simpa [frameVisible, hp, hv] using ha
      | true =>
        have hst : (frameStab st f).1.bodyClasses
            = classAdd st.bodyClasses "stabilized" := by
          simp [frameStab, hp, hv, h]
        refine runFrames_classes_mono fs _ _ ?_
        rw [hst]
        exact mem_classAdd_self _ _

theorem firstVisibleMark_count :
    ∀ fs : List FrameInput,
      (firstVisibleMark fs).count true
        = (if fs.any frameVisible then 1 else 0) := by
  intro fs
  induction fs with
  | nil => rfl
  | cons f fs ih =>
    simp only [firstVisibleMark, List.any_cons]
    by_cases hv : frameVisible f = true
    · rw [if_pos hv]
      simp [hv, List.count_cons, List.count_replicate]
    · rw [if_neg hv]
      have hv2 : frameVisible f = false := by simpa using hv
      simp [hv2, List.count_cons, ih]

end WebXRApp

namespace WebXRApp

/-- C2: starting a session unstabilized, the stabilization transition
fires exactly on the first frame on which the reticle ends visible (pose
available) and on no other frame of the session, the `stabilized` flag
ends the session set precisely when some frame saw the reticle, the
transition happens exactly once in that case, and the `stabilized` body
class is present from the transition through the end of the session. -/
theorem stabilized_transition_once (st : StabState) (fs : List FrameInput)
    (h : st.stabilized = false) :
    fireTrace st fs = firstVisibleMark fs
    ∧ (fireTrace st fs).count true = (if fs.any frameVisible then 1 else 0)
    ∧ (runFrames st fs).stabilized = fs.any frameVisible
    ∧ (fs.any frameVisible = true →
        "stabilized" ∈ (runFrames st fs).bodyClasses) := by
  refine ⟨fireTrace_marks_first fs st h, ?_, ?_,
    runFrames_gains_class fs st h⟩
  · rw [fireTrace_marks_first fs st h]
    exact firstVisibleMark_count fs
  · rw [runFrames_stabilized fs st, h]
    simp

/-- Witness for C2 on a concrete five-frame trace whose third frame is
the first with a visible reticle. -/
theorem stabilized_transition_once_witness :
    fireTrace stabInit sampleFrames = [false, false, true, false, false]
    ∧ (runFrames stabInit sampleFrames).stabilized = true
    ∧ "stabilized" ∈ (runFrames stabInit sampleFrames).bodyClasses :=
  ⟨((stabilized_transition_once stabInit sampleFrames rfl).1).trans
      (by decide),
   ((stabilized_transition_once stabInit sampleFrames rfl).2.2.1).trans
      (by decide),
   (stabilized_transition_once stabInit sampleFrames rfl).2.2.2 (by decide)⟩

/-- C3: in every invocation of the per-frame callback, the next animation
frame is requested before any of the frame's remaining work (camera
update, reticle update, input processing, rendering) executes, and when
the viewer pose is unavailable the callback does nothing beyond reading
the pose and rescheduling — rendering is skipped but the next frame is
still requested, so the render loop never stalls. -/
theorem next_frame_requested_before_work (p : Bool) (n : ℕ) :
    (onXRFrameActions p n).get? 1 = some FrameAction.requestFrame
    ∧ FrameAction.requestFrame ∈ onXRFrameActions p n
    ∧ (∀ i a, (onXRFrameActions p n).get? i = some a →
        isFrameWork a = true → 2 ≤ i)
    ∧ (p = false → onXRFrameActions p n
        = [FrameAction.getPose, FrameAction.requestFrame]) := by
  refine ⟨rfl, ?_, ?_, ?_⟩
  · simp [onXRFrameActions]
  · intro i a hget hw
    rcases i with _ | _ | i
    · have h0 : (onXRFrameActions p n).get? 0 = some FrameAction.getPose :=
        rfl
      rw [h0] at hget
      cases hget
      simp [isFrameWork] at hw
    · have h1 : (onXRFrameActions p n).get? 1
          = some FrameAction.requestFrame := rfl
      rw [h1] at hget
      cases hget
      simp [isFrameWork] at hw
    · omega
  · intro hp
    subst hp
    simp [onXRFrameActions]

/-- Witness for C3 at a concrete poseless frame with one view. -/
theorem next_frame_requested_before_work_witness :
    (onXRFrameActions false 1).get? 1 = some FrameAction.requestFrame
    ∧ onXRFrameActions false 1
        = [FrameAction.getPose, FrameAction.requestFrame] :=
  ⟨(next_frame_requested_before_work false 1).1,
   (next_frame_requested_before_work false 1).2.2.2 rfl⟩

/-- C1: when the one-shot hit test resolves with at least one hit,
`placeModel` sets the model's world position to the position column of
the first (nearest) hit's matrix, makes the model look at the camera's
horizontal position (its x and z) at the model's own new height, applies
no extra rotation (the scene has no pivot), and the entire result is
independent of the hits beyond index 0. -/
theorem placeModel_uses_first_hit (st : AppState) (hit : Hit)
    (rest rest2 : List Hit) (hs : st.session ≠ none)
    (hp : st.scenePivotRotY = none) :
    (placeModel st (Except.ok (hit :: rest))).1.model.position
        = matrixPosition hit.hitMatrix
    ∧ (placeModel st (Except.ok (hit :: rest))).1.model.lookTarget
        = some ⟨(matrixPosition st.cameraMatrix).x,
                (matrixPosition hit.hitMatrix).y,
                (matrixPosition st.cameraMatrix).z⟩
    ∧ (placeModel st (Except.ok (hit :: rest))).1.model.extraRotY
        = st.model.extraRotY
    ∧ placeModel st (Except.ok (hit :: rest))
        = placeModel st (Except.ok (hit :: rest2)) := by
  unfold placeModel
  rw [if_neg hs]
  simp [hp]

/-- Witness for C1: with two concrete hits the model lands at the first
hit's position aimed at the camera's x and z at its own height, and the
second hit is irrelevant. -/
theorem placeModel_uses_first_hit_witness :
    (placeModel sampleApp (Except.ok [hitA, hitB])).1.model.position
        = matrixPosition hitA.hitMatrix
    ∧ placeModel sampleApp (Except.ok [hitA, hitB])
        = placeModel sampleApp (Except.ok [hitA]) :=
  ⟨(placeModel_uses_first_hit sampleApp hitA [hitB] []
      (by simp [sampleApp]) rfl).1,
   (placeModel_uses_first_hit sampleApp hitA [hitB] []
      (by simp [sampleApp]) rfl).2.2.2⟩

/-- C4: a rejected hit-test promise is caught inside `placeModel`: the
rejection is logged, the model and the scene are untouched, the state is
unchanged apart from the lazy raycaster creation, and — the embedding of
`placeModel` being a total function into a plain state, mirroring the
`try`/`catch` — no exception escapes, so the failure is never fatal. -/
theorem placeModel_error_is_nonfatal (st : AppState) (msg : String) :
    (placeModel st (Except.error msg)).1.model = st.model
    ∧ (placeModel st (Except.error msg)).1.sceneHasModel = st.sceneHasModel
    ∧ (placeModel st (Except.error msg)).1
        = (if st.session = none then st else { st with raycaster := true })
    ∧ (st.session ≠ none →
        (placeModel st (Except.error msg)).2.errorLogged = true) := by
  unfold placeModel
  by_cases h : st.session = none
  · rw [if_pos h, if_pos h]
    exact ⟨rfl, rfl, rfl, fun hc => absurd h hc⟩
  · rw [if_neg h, if_neg h]
    exact ⟨rfl, rfl, rfl, fun _ => rfl⟩

/-- Witness for C4 at a live session and a concrete rejection. -/
theorem placeModel_error_is_nonfatal_witness :
    (placeModel sampleApp (Except.error "hit test rejected")).1.model
        = sampleApp.model
    ∧ (placeModel sampleApp (Except.error "hit test rejected")).2.errorLogged
        = true :=
  ⟨(placeModel_error_is_nonfatal sampleApp "hit test rejected").1,
   (placeModel_error_is_nonfatal sampleApp "hit test rejected").2.2.2
     (by simp [sampleApp])⟩

/-- C9 counterexample: when the platform session-support query resolves
with a negative (`false`) answer, `init` treats the resolution as
success: the `unsupported` class is not added and the Enter-AR click
listener is armed anyway, contradicting the claim that the app enters the
unsupported state and leaves the interaction path unarmed. -/
theorem probe_negative_answer_arms_enter_ar :
    (initProbe envNegAnswer).unsupportedClass = false
    ∧ (initProbe envNegAnswer).enterARArmed = true :=
  ⟨rfl, rfl⟩

/-- C9 (amended): if `navigator.xr` or `requestHitTestSource` is missing,
the probe adds the `unsupported` class and never arms the Enter-AR
listener; otherwise the listener is armed unconditionally, and the
`unsupported` class is added exactly when the session-support promise
rejects — a promise that resolves, even with a negative answer, is
treated as success. -/
theorem probe_unsupported_behavior (env : Env) :
    (¬(env.hasNavigatorXR = true ∧ env.hasRequestHitTestSource = true) →
        initProbe env = ⟨true, false⟩)
    ∧ (env.hasNavigatorXR = true → env.hasRequestHitTestSource = true →
        (initProbe env).enterARArmed = true
        ∧ ((initProbe env).unsupportedClass = true ↔
            env.sessionSupported = Except.error ())) := by
  obtain ⟨hx, hh, hs⟩ := env
  constructor
  · intro hand
    unfold initProbe
    cases hx <;> cases hh <;> simp_all
  · intro h1 h2
    subst h1
    subst h2
    cases hs with
    | ok b => exact ⟨rfl, by simp [initProbe]⟩
    | error u =>
      cases u
      exact ⟨rfl, by simp [initProbe]⟩

/-- Witness for C9 (amended) at a missing XR entry point and at the
negative-answer environment. -/
theorem probe_unsupported_behavior_witness :
    initProbe { hasNavigatorXR := false, hasRequestHitTestSource := true,
                sessionSupported := Except.ok true } = ⟨true, false⟩
    ∧ (initProbe envNegAnswer).enterARArmed = true :=
  ⟨(probe_unsupported_behavior
      { hasNavigatorXR := false, hasRequestHitTestSource := true,
        sessionSupported := Except.ok true }).1 (by simp),
   ((probe_unsupported_behavior envNegAnswer).2 rfl rfl).1⟩

end WebXRApp
